import Mathlib

/-!
# Verification of the ai-debate-tool orchestration core

This file is a shallow embedding, in Lean 4, of the orchestration logic of the
`ai-debate-tool` repository (two pipeline scripts, `debate_with_fallback.py`
and `multi_ai_debate_openrouter.py`), together with theorems about the
fallback-chain resolver, the invoker's outcome classification, the per-phase
result maps, the run-mode gating of optional phases and the phase-barrier
ordering.

Modelling conventions:

* The network transport is a parameter (an "oracle") mapping each request to
  the transport-level outcome observed by the code (an HTTP response with a
  status, a parsed `choices` message list and a raw text body; or a raised
  exception; or, for the OpenRouter script, a timeout).  All quantification
  over oracles ranges over every possible failure pattern.
* Python code that can raise is embedded as `Except String α`; code that
  always returns a string (the OpenRouter script's `call_openrouter`, which
  catches all exceptions) is embedded as a total function into `String`.
* Prompt texts are fixed template constants in the source; a prompt is
  embedded as the structured argument record passed to `TEMPLATE.format`,
  keeping exactly the data flow of the `.format` call sites while leaving the
  constant template text out of scope.
* `asyncio.gather` is a fan-out/join barrier: the embedding executes the
  sibling calls of one phase and emits one trace event per task spawn plus a
  join event, with downstream phases (which in the source are only reachable
  after `await gather` returns) sequenced after the join.
-/

namespace AIDebate

/-! ## Transport-level outcome types shared by both scripts -/

/-- One HTTP response as the scripts observe it: the status code, the list of
generated message contents extracted from `result["choices"][i]["message"]["content"]`
(empty when the payload lacks a usable `choices` field), and the raw text body
returned by `resp.text()`. -/
structure HttpResponse where
  status : Nat
  choices : List String
  body : String
deriving DecidableEq

/-- Argument record of a `CRITIQUE_PROMPT.format(...)` call (both scripts use
the same placeholder names: the authoring agent, the question, its own answer,
and the two peer answers each labelled with its author). -/
structure CritiqueArgs where
  current_ai : String
  question : String
  my_answer : String
  ai_b : String
  answer_b : String
  ai_c : String
  answer_c : String
deriving DecidableEq

/-! ## Embedding of `debate_with_fallback.py` (namespace `DWF`) -/

namespace DWF

/-- Transport outcome of one `session.post` in `debate_with_fallback.py`:
either an HTTP response or a raised exception (connection error, timeout —
this script does not catch them; they propagate to `call_with_fallback`). -/
inductive Transport where
  | response (r : HttpResponse)
  | raised (msg : String)
deriving DecidableEq

/-- Fallback chain constant `CLAUDE_MODELS` of `debate_with_fallback.py`. -/
def CLAUDE_MODELS : List String := ["anthropic/claude-3.5-sonnet"]

/-- Fallback chain constant `GPT_MODELS` of `debate_with_fallback.py`. -/
def GPT_MODELS : List String := ["openai/gpt-4o", "openai/gpt-4o-mini", "openai/gpt-4-turbo"]

/-- Fallback chain constant `GEMINI_MODELS` of `debate_with_fallback.py`. -/
def GEMINI_MODELS : List String := ["google/gemini-2.0-flash-001", "google/gemini-pro"]

/-- `call_openrouter` of `debate_with_fallback.py`: on status 200 with a
non-empty `choices` list it returns the first message content; otherwise it
returns the string `"[API错误 {status}] " ++ body[:200]` (the raw body truncated
to its first 200 characters).  A raised transport exception propagates
(`Except.error`). -/
def call_openrouter (t : Transport) : Except String String :=
  match t with
  | .raised msg => Except.error msg
  | .response r =>
    match r.status, r.choices with
    | 200, c :: _ => Except.ok c
    | _, _ => Except.ok ("[API错误 " ++ toString r.status ++ "] " ++ r.body.take 200)

/-- Acceptability check of `call_with_fallback`:
`not result.startswith("[") and len(result) > 100`. -/
def acceptable (result : String) : Prop :=
  result.startsWith "[" = false ∧ result.length > 100

instance (result : String) : Decidable (acceptable result) := by
  unfold acceptable; infer_instance

/-- Chain-exhaustion marker `f"[{name}所有模型都失败了]"` returned by
`call_with_fallback` when no candidate produced an acceptable result. -/
def allFailedMarker (name : String) : String :=
  "[" ++ name ++ "所有模型都失败了]"

/-- `call_with_fallback` of `debate_with_fallback.py`.  `tryModel` is the
invocation of one candidate model for the (fixed) prompt of this call, i.e.
`call_openrouter(session, model, prompt)`: an exception is caught and the next
candidate is tried; an unacceptable result also falls through to the next
candidate; an acceptable result is returned immediately.  When the chain is
exhausted the deterministic marker is returned as an ordinary value. -/
def call_with_fallback (tryModel : String → Except String String) :
    List String → String → String
  | [], name => allFailedMarker name
  | model :: rest, name =>
    match tryModel model with
    | Except.ok result =>
      if acceptable result then result else call_with_fallback tryModel rest name
    | Except.error _ => call_with_fallback tryModel rest name

/-- The candidates actually invoked by `call_with_fallback` on a chain, in
order (in the source each attempt is visible as a `尝试 ...` print): every
candidate up to and including the first accepted one, or the whole chain. -/
def fallbackAttempts (tryModel : String → Except String String) :
    List String → List String
  | [] => []
  | model :: rest =>
    match tryModel model with
    | Except.ok result =>
      if acceptable result then [model] else model :: fallbackAttempts tryModel rest
    | Except.error _ => model :: fallbackAttempts tryModel rest

/-- Prompts of `debate_with_fallback.py`, as the argument records of the
`.format` call sites (`ORIGINAL_PROMPT`, `CRITIQUE_PROMPT`, `JUDGE_PROMPT`). -/
structure JudgeArgs where
  question : String
  claude_answer : String
  gpt_answer : String
  gemini_answer : String
  claude_critique : String
  gpt_critique : String
  gemini_critique : String
deriving DecidableEq

inductive PromptSpec where
  | original (question : String)
  | critique (args : CritiqueArgs)
  | judge (args : JudgeArgs)
deriving DecidableEq

/-- The three debater identities of `debate_with_fallback.py`. -/
inductive Debater where
  | claude
  | gpt
  | gemini
deriving DecidableEq

def debaterName : Debater → String
  | .claude => "Claude"
  | .gpt => "GPT"
  | .gemini => "Gemini"

/-- Argument records of the three `CRITIQUE_PROMPT.format` calls in
`run_debate` of `debate_with_fallback.py` (lines 179-193), one per authoring
agent.  Each record carries the author's own answer as `my_answer` and the
other two answers in the `(ai_b, answer_b)` / `(ai_c, answer_c)` slots. -/
def critique_prompt_args (question claude_answer gpt_answer gemini_answer : String) :
    Debater → CritiqueArgs
  | .claude =>
    ⟨"Claude", question, claude_answer, "GPT", gpt_answer, "Gemini", gemini_answer⟩
  | .gpt =>
    ⟨"GPT", question, gpt_answer, "Claude", claude_answer, "Gemini", gemini_answer⟩
  | .gemini =>
    ⟨"Gemini", question, gemini_answer, "Claude", claude_answer, "GPT", gpt_answer⟩

/-- The transcript of one `run_debate` run: the three phase-one answers, the
three phase-two critiques, and the final judgment (the fields of the report
the script assembles). -/
structure Report where
  claude_answer : String
  gpt_answer : String
  gemini_answer : String
  claude_critique : String
  gpt_critique : String
  gemini_critique : String
  final_judgment : String
deriving DecidableEq

/-- `run_debate` of `debate_with_fallback.py`, with the three chain constants
generalised to parameters (the source reads them from the module-level
globals; `run_debate CLAUDE_MODELS GPT_MODELS GEMINI_MODELS` is the literal
script).  The oracle maps (model, prompt) to the transport outcome. -/
def run_debate (oracle : String → PromptSpec → Transport)
    (claudeModels gptModels geminiModels : List String) (question : String) : Report :=
  let resolve := fun (models : List String) (p : PromptSpec) (name : String) =>
    call_with_fallback (fun m => call_openrouter (oracle m p)) models name
  let originalPromptSpec := PromptSpec.original question
  let claude_answer := resolve claudeModels originalPromptSpec "Claude"
  let gpt_answer := resolve gptModels originalPromptSpec "GPT"
  let gemini_answer := resolve geminiModels originalPromptSpec "Gemini"
  let cargs := critique_prompt_args question claude_answer gpt_answer gemini_answer
  let claude_critique := resolve claudeModels (PromptSpec.critique (cargs .claude)) "Claude"
  let gpt_critique := resolve gptModels (PromptSpec.critique (cargs .gpt)) "GPT"
  let gemini_critique := resolve geminiModels (PromptSpec.critique (cargs .gemini)) "Gemini"
  let judgePromptSpec := PromptSpec.judge
    ⟨question, claude_answer, gpt_answer, gemini_answer,
      claude_critique, gpt_critique, gemini_critique⟩
  let final_judgment := resolve claudeModels judgePromptSpec "裁判"
  ⟨claude_answer, gpt_answer, gemini_answer,
    claude_critique, gpt_critique, gemini_critique, final_judgment⟩

end DWF

/-! ## Embedding of `multi_ai_debate_openrouter.py` (namespace `MAD`) -/

namespace MAD

/-- Model constants of `multi_ai_debate_openrouter.py` (plan A, the active
configuration). -/
def CLAUDE_MODEL : String := "anthropic/claude-opus-4.5"

def OPENAI_MODEL : String := "openai/gpt-5.2-pro"

def GEMINI_MODEL : String := "google/gemini-3-pro-preview"

/-- Startup configuration check of `multi_ai_debate_openrouter.py` (lines
22-27): an unset/empty `OPENROUTER_API_KEY` aborts the process with
`exit(1)` before any phase can run; otherwise startup proceeds. -/
def startupCheck (apiKey : String) : Except String Unit :=
  if apiKey = "" then Except.error "错误：请设置环境变量 OPENROUTER_API_KEY"
  else Except.ok ()

/-- Timeout lookup table `MODEL_TIMEOUTS` (seconds), keyed by model name. -/
def MODEL_TIMEOUTS : List (String × Nat) :=
  [("openai/gpt-5.2-pro", 600),
   ("openai/gpt-4o", 180),
   ("anthropic/claude-opus-4.5", 300),
   ("default", 180)]

/-- `get_timeout_for_model`: `MODEL_TIMEOUTS.get(model, MODEL_TIMEOUTS["default"])`.
The inner `none` branch mirrors the impossible `KeyError` on the `"default"`
entry, which is present in the table. -/
def get_timeout_for_model (model : String) : Nat :=
  match MODEL_TIMEOUTS.lookup model with
  | some t => t
  | none =>
    match MODEL_TIMEOUTS.lookup "default" with
    | some d => d
    | none => 0

/-- Transport outcome of one `session.post` in `multi_ai_debate_openrouter.py`:
an HTTP response (`jsonDump` stands for `json.dumps(result)` of the parsed
payload), an `asyncio.TimeoutError` after the configured timeout elapsed, or
any other raised exception. -/
inductive Transport where
  | response (status : Nat) (choices : List String) (jsonDump : String) (body : String)
  | timedOut
  | raised (msg : String)
deriving DecidableEq

/-- `call_openrouter` of `multi_ai_debate_openrouter.py`.  It never raises:
status 200 with a non-empty `choices` list yields the first message content;
status 200 with an empty payload yields `"[API返回空内容] " ++ json.dumps(result)`;
a non-200 status yields `"[API错误 {status}] " ++ body` (the untruncated body);
a timeout yields the timeout marker naming the model and its configured
timeout; any other exception yields `"[调用失败] " ++ str(e)`. -/
def call_openrouter (model : String) (t : Transport) : String :=
  match t with
  | .response status choices jsonDump body =>
    if status = 200 then
      match choices with
      | c :: _ => c
      | [] => "[API返回空内容] " ++ jsonDump
    else
      "[API错误 " ++ toString status ++ "] " ++ body
  | .timedOut =>
    "[超时] 模型 " ++ model ++ " 响应超过 " ++ toString (get_timeout_for_model model) ++ " 秒"
  | .raised msg => "[调用失败] " ++ msg

/-- The three debater identities of `multi_ai_debate_openrouter.py`. -/
inductive Debater where
  | claude
  | gemini
  | chatgpt
deriving DecidableEq

def debaterName : Debater → String
  | .claude => "Claude"
  | .gemini => "Gemini"
  | .chatgpt => "ChatGPT"

/-- Argument record of the `JUDGE_PROMPT.format` call (line 621). -/
structure JudgeArgs where
  question : String
  claude_answer : String
  gemini_answer : String
  chatgpt_answer : String
  claude_critique : String
  gemini_critique : String
  chatgpt_critique : String
deriving DecidableEq

/-- Prompts of `multi_ai_debate_openrouter.py`, as the argument records of the
five `.format` call sites. -/
inductive PromptSpec where
  | original (question : String)
  | critique (args : CritiqueArgs)
  | judge (args : JudgeArgs)
  | synthesisReport (question : String) (judgment : String)
  | internalization (question : String) (judgment : String)
deriving DecidableEq

/-- Argument records of the three `CRITIQUE_PROMPT.format` calls in
`run_multi_ai_debate` (lines 586-602), one per authoring agent. -/
def critique_prompt_args (question claude_answer gemini_answer chatgpt_answer : String) :
    Debater → CritiqueArgs
  | .claude =>
    ⟨"Claude", question, claude_answer, "Gemini", gemini_answer, "ChatGPT", chatgpt_answer⟩
  | .gemini =>
    ⟨"Gemini", question, gemini_answer, "Claude", claude_answer, "ChatGPT", chatgpt_answer⟩
  | .chatgpt =>
    ⟨"ChatGPT", question, chatgpt_answer, "Claude", claude_answer, "Gemini", gemini_answer⟩

/-- The `results` dict assembled by `run_multi_ai_debate`: per-phase agent-keyed
maps (association lists in the insertion order of the source) and the three
single-agent phase outputs (empty string when the phase is skipped, exactly as
the dict is initialised). -/
structure Results where
  question : String
  mode : String
  phase1_answers : List (String × String)
  phase2_critiques : List (String × String)
  phase3_judgment : String
  phase4_synthesis : String
  phase5_internalization : String
deriving DecidableEq

/-- Scheduling trace events: one `invoke` per task handed to `asyncio.gather`
(or awaited directly), tagged with its phase number and model, and one
`joinAll` per barrier at which the phase's results become available. -/
inductive Event where
  | invoke (phase : Nat) (model : String)
  | joinAll (phase : Nat)
deriving DecidableEq

/-- Phase number of a trace event. -/
def Event.phase : Event → Nat
  | .invoke p _ => p
  | .joinAll p => p

/-- Barrier-ordering weight: within one phase all `invoke` events weigh alike
and the `joinAll` barrier weighs more; the next phase's events weigh more
still. -/
def Event.weight : Event → Nat
  | .invoke p _ => 2 * p
  | .joinAll p => 2 * p + 1

def Event.isJoin : Event → Bool
  | .invoke _ _ => false
  | .joinAll _ => true

/-- `run_multi_ai_debate` of `multi_ai_debate_openrouter.py`.  The oracle maps
(model, prompt) to the transport outcome.  Returns the `results` dict together
with the scheduling trace.  Phase four runs when `mode in ["full", "all"]`,
phase five when `mode == "all"`. -/
def run_multi_ai_debate (oracle : String → PromptSpec → Transport)
    (question : String) (mode : String) : Results × List Event :=
  let callModel := fun (m : String) (p : PromptSpec) => call_openrouter m (oracle m p)
  let originalPromptSpec := PromptSpec.original question
  let claude_answer := callModel CLAUDE_MODEL originalPromptSpec
  let chatgpt_answer := callModel OPENAI_MODEL originalPromptSpec
  let gemini_answer := callModel GEMINI_MODEL originalPromptSpec
  let phase1Trace : List Event :=
    [.invoke 1 CLAUDE_MODEL, .invoke 1 OPENAI_MODEL, .invoke 1 GEMINI_MODEL, .joinAll 1]
  let cargs := critique_prompt_args question claude_answer gemini_answer chatgpt_answer
  let claude_critique := callModel CLAUDE_MODEL (PromptSpec.critique (cargs .claude))
  let gemini_critique := callModel GEMINI_MODEL (PromptSpec.critique (cargs .gemini))
  let chatgpt_critique := callModel OPENAI_MODEL (PromptSpec.critique (cargs .chatgpt))
  let phase2Trace : List Event :=
    [.invoke 2 CLAUDE_MODEL, .invoke 2 GEMINI_MODEL, .invoke 2 OPENAI_MODEL, .joinAll 2]
  let judgePromptSpec := PromptSpec.judge
    ⟨question, claude_answer, gemini_answer, chatgpt_answer,
      claude_critique, gemini_critique, chatgpt_critique⟩
  let final_judgment := callModel CLAUDE_MODEL judgePromptSpec
  let phase3Trace : List Event := [.invoke 3 CLAUDE_MODEL, .joinAll 3]
  let synthesis :=
    if ["full", "all"].contains mode then
      callModel CLAUDE_MODEL (PromptSpec.synthesisReport question final_judgment)
    else ""
  let phase4Trace : List Event :=
    if ["full", "all"].contains mode then [.invoke 4 CLAUDE_MODEL, .joinAll 4] else []
  let internalizationGuide :=
    if mode = "all" then
      callModel CLAUDE_MODEL (PromptSpec.internalization question final_judgment)
    else ""
  let phase5Trace : List Event :=
    if mode = "all" then [.invoke 5 CLAUDE_MODEL, .joinAll 5] else []
  (⟨question, mode,
    [("claude", claude_answer), ("chatgpt", chatgpt_answer), ("gemini", gemini_answer)],
    [("claude", claude_critique), ("gemini", gemini_critique), ("chatgpt", chatgpt_critique)],
    final_judgment, synthesis, internalizationGuide⟩,
   phase1Trace ++ phase2Trace ++ phase3Trace ++ phase4Trace ++ phase5Trace)

end MAD

/-- `run_debate` of `debate_with_fallback.py` instrumented with its scheduling
trace (the schedule of lines 165-211 is fixed: `asyncio.gather` over the three
phase-one resolver tasks, `asyncio.gather` over the three phase-two resolver
tasks, then the directly-awaited judge call).  One `invoke` event is emitted
per resolver task, tagged with the agent name handed to `call_with_fallback`,
and one `joinAll` barrier per phase; phase-two prompt records are built from
the phase-one answers only after phase 1's barrier, and the judge record from
both earlier phases' answers only after phase 2's barrier, exactly as in
`run_debate`.  The result component is definitionally `run_debate`. -/
def DWF.run_debate_traced (oracle : String → DWF.PromptSpec → DWF.Transport)
    (claudeModels gptModels geminiModels : List String) (question : String) :
    DWF.Report × List MAD.Event :=
  let resolve := fun (models : List String) (p : DWF.PromptSpec) (name : String) =>
    DWF.call_with_fallback (fun m => DWF.call_openrouter (oracle m p)) models name
  let originalPromptSpec := DWF.PromptSpec.original question
  let claude_answer := resolve claudeModels originalPromptSpec "Claude"
  let gpt_answer := resolve gptModels originalPromptSpec "GPT"
  let gemini_answer := resolve geminiModels originalPromptSpec "Gemini"
  let phase1Trace : List MAD.Event :=
    [.invoke 1 "Claude", .invoke 1 "GPT", .invoke 1 "Gemini", .joinAll 1]
  let cargs := DWF.critique_prompt_args question claude_answer gpt_answer gemini_answer
  let claude_critique := resolve claudeModels (DWF.PromptSpec.critique (cargs .claude)) "Claude"
  let gpt_critique := resolve gptModels (DWF.PromptSpec.critique (cargs .gpt)) "GPT"
  let gemini_critique := resolve geminiModels (DWF.PromptSpec.critique (cargs .gemini)) "Gemini"
  let phase2Trace : List MAD.Event :=
    [.invoke 2 "Claude", .invoke 2 "GPT", .invoke 2 "Gemini", .joinAll 2]
  let judgePromptSpec := DWF.PromptSpec.judge
    ⟨question, claude_answer, gpt_answer, gemini_answer,
      claude_critique, gpt_critique, gemini_critique⟩
  let final_judgment := resolve claudeModels judgePromptSpec "裁判"
  let phase3Trace : List MAD.Event := [.invoke 3 "裁判", .joinAll 3]
  (⟨claude_answer, gpt_answer, gemini_answer,
    claude_critique, gpt_critique, gemini_critique, final_judgment⟩,
   phase1Trace ++ phase2Trace ++ phase3Trace)

/-! ## Concrete fixtures used by the closed instantiations -/

/-- A transport oracle of `debate_with_fallback.py` on which every request
raises a connection error. -/
def DWF.downOracle : String → DWF.PromptSpec → DWF.Transport :=
  fun _ _ => DWF.Transport.raised "connection refused"

/-- A transport oracle of `multi_ai_debate_openrouter.py` on which every
request raises. -/
def MAD.downOracle : String → MAD.PromptSpec → MAD.Transport :=
  fun _ _ => MAD.Transport.raised "down"

/-- A 150-character, non-bracket-initial candidate answer. -/
def acceptedText : String := String.mk (List.replicate 150 'a')

/-- A 300-character raw response body. -/
def bigBody : String := String.mk (List.replicate 300 'x')

/-- A per-candidate invocation function on which exactly one candidate model
succeeds with `acceptedText` and every other one raises. -/
def c2TryModel : String → Except String String := fun m =>
  if m = "openai/gpt-4o-mini" then Except.ok acceptedText else Except.error "boom"

/-! ## Helper lemmas -/

/-- A string whose first character is the failure-sentinel bracket satisfies
the source's `str.startswith("[")` check. -/
theorem mk_bracket_startsWith (cs : List Char) :
    (String.mk ('[' :: cs)).startsWith "[" = true := by
  have h1 : '['.utf8Size = 1 := rfl
  have hget : String.get ⟨'[' :: cs⟩ ⟨0⟩ = '[' := by
    have := String.get_of_valid [] ('[' :: cs)
    simpa using this
  have hcond : ¬((0 : Nat) + 0 = String.utf8ByteSize.go cs + 1) := by
    simp [String.utf8ByteSize.go_eq]
  have h0 : ({ byteIdx := 0 } : String.Pos) + (0 : String.Pos) = ⟨0⟩ := rfl
  simp only [String.startsWith, String.toSubstring, Substring.take, Substring.nextn,
    Substring.next, String.endPos, String.utf8ByteSize, String.utf8ByteSize.go, h1,
    String.Pos.ext_iff, String.Pos.byteIdx_zero, String.Pos.add_byteIdx]
  rw [if_neg hcond]
  simp only [h0, String.next, hget]
  have hc : (({ byteIdx := 0 } : String.Pos) + '[').byteIdx = 1 := rfl
  simp only [hc, Nat.sub_zero, Nat.zero_add]
  have h01 : ({ byteIdx := 0 } : String.Pos) + ({ byteIdx := 1 } : String.Pos) = ⟨1⟩ := rfl
  simp only [h01]
  show Substring.beq _ _ = true
  have hs : Nat.sub 1 0 = 1 := rfl
  simp only [Substring.beq, Substring.bsize, hs, Nat.sub_zero, String.substrEq,
    String.endPos, String.utf8ByteSize, String.utf8ByteSize.go_eq, h1,
    String.Pos.byteIdx_zero, beq_self_eq_true, Bool.true_and, Nat.zero_add,
    Bool.and_eq_true, decide_eq_true_eq]
  refine ⟨⟨by simp [String.utf8Len_cons, h1], by decide⟩, ?_⟩
  rw [String.substrEq.loop]
  simp only [hget]
  have hgetb : "[".get ⟨0⟩ = '[' := rfl
  simp only [hgetb, beq_self_eq_true, Bool.true_and]
  have hone : ({ byteIdx := 0 } : String.Pos) + '[' = ⟨1⟩ := rfl
  rw [dif_pos (by decide)]
  simp only [hone]
  rw [String.substrEq.loop]
  simp

/-- A string whose first character is `'a'` fails the `startswith("[")` check
(`String.startsWith` is not kernel-reducible, so concrete instances are proved
through this lemma). -/
theorem mk_a_not_startsWith_bracket (cs : List Char) :
    (String.mk ('a' :: cs)).startsWith "[" = false := by
  have h1 : 'a'.utf8Size = 1 := rfl
  have hget : String.get ⟨'a' :: cs⟩ ⟨0⟩ = 'a' := by
    have := String.get_of_valid [] ('a' :: cs)
    simpa using this
  have hcond : ¬((0 : Nat) + 0 = String.utf8ByteSize.go cs + 1) := by
    simp [String.utf8ByteSize.go_eq]
  have h0 : ({ byteIdx := 0 } : String.Pos) + (0 : String.Pos) = ⟨0⟩ := rfl
  simp only [String.startsWith, String.toSubstring, Substring.take, Substring.nextn,
    Substring.next, String.endPos, String.utf8ByteSize, String.utf8ByteSize.go, h1,
    String.Pos.ext_iff, String.Pos.byteIdx_zero, String.Pos.add_byteIdx]
  rw [if_neg hcond]
  simp only [h0, String.next, hget]
  have hc : (({ byteIdx := 0 } : String.Pos) + 'a').byteIdx = 1 := rfl
  simp only [hc, Nat.sub_zero, Nat.zero_add]
  have h01 : ({ byteIdx := 0 } : String.Pos) + ({ byteIdx := 1 } : String.Pos) = ⟨1⟩ := rfl
  simp only [h01]
  show Substring.beq _ _ = false
  have hs : Nat.sub 1 0 = 1 := rfl
  simp only [Substring.beq, Substring.bsize, hs, Nat.sub_zero, String.substrEq,
    String.endPos, String.utf8ByteSize, String.utf8ByteSize.go_eq, h1,
    String.Pos.byteIdx_zero, beq_self_eq_true, Bool.true_and, Nat.zero_add]
  rw [String.substrEq.loop]
  rw [dif_pos (by decide)]
  simp only [hget]
  have hgetb : "[".get ⟨0⟩ = '[' := rfl
  simp only [hgetb]
  have hne : ('a' == '[') = false := by decide
  simp [hne]

/-- Any string of the form `"[" ++ rest` (up to `String.data`) begins with the
sentinel bracket in the sense of `String.startsWith`. -/
theorem startsWith_bracket_of_data (s : String) (cs : List Char)
    (h : s.data = '[' :: cs) : s.startsWith "[" = true := by
  cases s with
  | mk data =>
    cases h
    exact mk_bracket_startsWith cs

/-- A string beginning with the sentinel bracket is never `acceptable` for the
fallback resolver of `debate_with_fallback.py`. -/
theorem not_acceptable_of_bracket (s : String) (cs : List Char)
    (h : s.data = '[' :: cs) : ¬ DWF.acceptable s := by
  intro hacc
  have := startsWith_bracket_of_data s cs h
  rw [hacc.1] at this
  exact Bool.false_ne_true this

/-- Appending anything to a bracket-initial literal keeps the bracket first. -/
theorem data_bracket_append (p : String) (cs : List Char) (hp : p.data = '[' :: cs)
    (t : String) : (p ++ t).data = '[' :: (cs ++ t.data) := by
  simp [String.data_append, hp]

/-- Every `Except.ok` outcome of the `debate_with_fallback.py` invoker is
either a message content extracted from a status-200 response with a non-empty
`choices` list, or an invoker-produced error string that begins with `'['`. -/
theorem DWF.call_openrouter_shape (t : DWF.Transport) (s : String)
    (h : DWF.call_openrouter t = Except.ok s) :
    (∃ r : HttpResponse, t = DWF.Transport.response r ∧ r.status = 200 ∧
      ∃ rest, r.choices = s :: rest) ∨
    (∃ cs, s.data = '[' :: cs) := by
  have hpre : ("[API错误 " : String).data = '[' :: ("API错误 " : String).data := rfl
  cases t with
  | raised msg => simp [DWF.call_openrouter] at h
  | response r =>
    rcases r with ⟨status, choices, body⟩
    simp only [DWF.call_openrouter] at h
    split at h
    · rename_i c cks
      obtain rfl : c = s := by injection h
      exact Or.inl ⟨⟨200, c :: cks, body⟩, rfl, rfl, cks, rfl⟩
    · obtain rfl : "[API错误 " ++ toString status ++ "] " ++ body.take 200 = s := by
        injection h
      right
      refine ⟨("API错误 " : String).data ++
        ((toString status : String).data ++ (("] " : String).data ++ (body.take 200).data)), ?_⟩
      simp only [String.data_append, hpre, List.cons_append, List.append_assoc]

/-- The marker `allFailedMarker name` itself begins with `'['`. -/
theorem allFailedMarker_data (name : String) :
    ∃ cs, (DWF.allFailedMarker name).data = '[' :: cs := by
  have hb : ("[" : String).data = ['['] := rfl
  refine ⟨name.data ++ ("所有模型都失败了]" : String).data, ?_⟩
  simp only [DWF.allFailedMarker, String.data_append, hb, List.cons_append,
    List.append_assoc, List.nil_append]

/-- Dichotomy of the fallback resolver: for any per-candidate invocation
function, the returned value is either an accepted candidate text (not
bracket-initial and longer than 100 characters, returned verbatim by some
candidate) or the chain-exhaustion marker. -/
theorem DWF.call_with_fallback_dichotomy (tryModel : String → Except String String)
    (models : List String) (name : String) :
    (DWF.acceptable (DWF.call_with_fallback tryModel models name) ∧
      ∃ m ∈ models, tryModel m = Except.ok (DWF.call_with_fallback tryModel models name)) ∨
    DWF.call_with_fallback tryModel models name = DWF.allFailedMarker name := by
  induction models with
  | nil => right; rfl
  | cons model rest ih =>
    simp only [DWF.call_with_fallback]
    split
    · rename_i result heq
      split
      · rename_i hacc
        exact Or.inl ⟨hacc, model, List.mem_cons_self .., heq⟩
      · rcases ih with ⟨hacc2, m, hm, hmeq⟩ | hmark
        · exact Or.inl ⟨hacc2, m, List.mem_cons_of_mem _ hm, hmeq⟩
        · exact Or.inr hmark
    · rcases ih with ⟨hacc2, m, hm, hmeq⟩ | hmark
      · exact Or.inl ⟨hacc2, m, List.mem_cons_of_mem _ hm, hmeq⟩
      · exact Or.inr hmark

/-- When every candidate of the chain fails (raises) or returns an
unacceptable result, the resolver returns the exhaustion marker. -/
theorem DWF.call_with_fallback_all_failed (tryModel : String → Except String String)
    (models : List String) (name : String)
    (h : ∀ m ∈ models, ∀ s, tryModel m = Except.ok s → ¬ DWF.acceptable s) :
    DWF.call_with_fallback tryModel models name = DWF.allFailedMarker name := by
  induction models with
  | nil => rfl
  | cons model rest ih =>
    simp only [DWF.call_with_fallback]
    split
    · rename_i result heq
      rw [if_neg (h model (List.mem_cons_self ..) result heq)]
      exact ih fun m hm => h m (List.mem_cons_of_mem _ hm)
    · exact ih fun m hm => h m (List.mem_cons_of_mem _ hm)

/-- Bracket-initial literal glued to anything still starts with `"["`. -/
theorem startsWith_bracket_append (p : String) (cs : List Char)
    (hp : p.data = '[' :: cs) (t : String) : (p ++ t).startsWith "[" = true :=
  startsWith_bracket_of_data _ _ (data_bracket_append p cs hp t)

/-- First-acceptable short-circuit of the resolver (returned value): when all
candidates before `model` raise or are rejected and `model` returns an
acceptable `t`, the resolver returns `t`. -/
theorem DWF.call_with_fallback_first_acceptable (tryModel : String → Except String String)
    (pre post : List String) (model name t : String)
    (hpre : ∀ x ∈ pre, ∀ s, tryModel x = Except.ok s → ¬ DWF.acceptable s)
    (hm : tryModel model = Except.ok t) (ht : DWF.acceptable t) :
    DWF.call_with_fallback tryModel (pre ++ model :: post) name = t := by
  induction pre with
  | nil =>
    simp only [List.nil_append, DWF.call_with_fallback, hm]
    exact if_pos ht
  | cons x xs ih =>
    simp only [List.cons_append, DWF.call_with_fallback]
    split
    · rename_i result heq
      rw [if_neg (hpre x (List.mem_cons_self ..) result heq)]
      exact ih fun y hy => hpre y (List.mem_cons_of_mem _ hy)
    · exact ih fun y hy => hpre y (List.mem_cons_of_mem _ hy)

/-- First-acceptable short-circuit of the resolver (candidates invoked): the
attempts stop at `model`; the candidates after it are never invoked. -/
theorem DWF.fallbackAttempts_first_acceptable (tryModel : String → Except String String)
    (pre post : List String) (model t : String)
    (hpre : ∀ x ∈ pre, ∀ s, tryModel x = Except.ok s → ¬ DWF.acceptable s)
    (hm : tryModel model = Except.ok t) (ht : DWF.acceptable t) :
    DWF.fallbackAttempts tryModel (pre ++ model :: post) = pre ++ [model] := by
  induction pre with
  | nil =>
    simp only [List.nil_append, DWF.fallbackAttempts, hm]
    rw [if_pos ht]
  | cons x xs ih =>
    simp only [List.cons_append, DWF.fallbackAttempts]
    split
    · rename_i result heq
      rw [if_neg (hpre x (List.mem_cons_self ..) result heq)]
      exact congrArg (List.cons x) (ih fun y hy => hpre y (List.mem_cons_of_mem _ hy))
    · exact congrArg (List.cons x) (ih fun y hy => hpre y (List.mem_cons_of_mem _ hy))

set_option maxRecDepth 8000 in
/-- The fixture answer passes the resolver's acceptability check. -/
theorem acceptedText_acceptable : DWF.acceptable acceptedText := by
  constructor
  · have h : acceptedText = String.mk ('a' :: List.replicate 149 'a') := rfl
    rw [h]
    exact mk_a_not_startsWith_bracket _
  · decide

/-- Every output of the OpenRouter invoker is either a message content from a
status-200 response with a non-empty `choices` list, or an invoker-produced
failure-marker string that begins with `'['`. -/
theorem MAD.invoker_output_shape (model : String) (t : MAD.Transport) :
    (∃ c cks jsonDump body, t = MAD.Transport.response 200 (c :: cks) jsonDump body ∧
      MAD.call_openrouter model t = c) ∨
    (MAD.call_openrouter model t).startsWith "[" = true := by
  have hto : ("[超时] 模型 " : String).data = '[' :: ("超时] 模型 " : String).data := rfl
  have hrf : ("[调用失败] " : String).data = '[' :: ("调用失败] " : String).data := rfl
  have hec : ("[API返回空内容] " : String).data = '[' :: ("API返回空内容] " : String).data := rfl
  have her : ("[API错误 " : String).data = '[' :: ("API错误 " : String).data := rfl
  cases t with
  | timedOut =>
    right
    show (("[超时] 模型 " ++ model ++ " 响应超过 " ++
      toString (MAD.get_timeout_for_model model) ++ " 秒").startsWith "[") = true
    apply startsWith_bracket_of_data
    simp only [String.data_append, hto, List.cons_append, List.append_assoc]
    rfl
  | raised msg =>
    right
    show (("[调用失败] " ++ msg).startsWith "[") = true
    exact startsWith_bracket_append _ _ hrf msg
  | response status choices jsonDump body =>
    by_cases h200 : status = 200
    · subst h200
      cases choices with
      | nil =>
        right
        show (("[API返回空内容] " ++ jsonDump).startsWith "[") = true
        exact startsWith_bracket_append _ _ hec jsonDump
      | cons c cks =>
        left
        exact ⟨c, cks, jsonDump, body, rfl, by simp [MAD.call_openrouter]⟩
    · right
      show ((MAD.call_openrouter model (MAD.Transport.response status choices jsonDump body)).startsWith "[") = true
      simp only [MAD.call_openrouter]
      rw [if_neg h200]
      apply startsWith_bracket_of_data
      simp only [String.data_append, her, List.cons_append, List.append_assoc]
      rfl

/-- The scheduling trace of `run_multi_ai_debate` is the three-phase base
trace followed by the two mode-gated optional phase segments; it does not
depend on the oracle or the question. -/
theorem MAD.trace_eq (oracle : String → MAD.PromptSpec → MAD.Transport)
    (q mode : String) :
    (MAD.run_multi_ai_debate oracle q mode).2 =
      [MAD.Event.invoke 1 MAD.CLAUDE_MODEL, MAD.Event.invoke 1 MAD.OPENAI_MODEL,
       MAD.Event.invoke 1 MAD.GEMINI_MODEL, MAD.Event.joinAll 1,
       MAD.Event.invoke 2 MAD.CLAUDE_MODEL, MAD.Event.invoke 2 MAD.GEMINI_MODEL,
       MAD.Event.invoke 2 MAD.OPENAI_MODEL, MAD.Event.joinAll 2,
       MAD.Event.invoke 3 MAD.CLAUDE_MODEL, MAD.Event.joinAll 3] ++
      (if ["full", "all"].contains mode then
        [MAD.Event.invoke 4 MAD.CLAUDE_MODEL, MAD.Event.joinAll 4] else []) ++
      (if mode = "all" then
        [MAD.Event.invoke 5 MAD.CLAUDE_MODEL, MAD.Event.joinAll 5] else []) := by
  simp [MAD.run_multi_ai_debate]

/-! ## Claims about the fallback resolver -/

/-- C1: for every agent name and every fallback chain in which every candidate
invocation raises or is rejected as non-substantive, `call_with_fallback`
returns — as an ordinary value, never by raising — the deterministic
failure-marker text `"[" ++ name ++ "所有模型都失败了]"` (the source's rendering of
`[<agent-name> all candidates failed]`), and `run_debate` still runs every
phase to completion, producing the full report (the DONE state) with that
marker as every agent's text. -/
theorem c1_exhausted_chain_yields_marker_and_run_completes :
    (∀ (tryModel : String → Except String String) (models : List String) (name : String),
      (∀ m ∈ models, ∀ s, tryModel m = Except.ok s → ¬ DWF.acceptable s) →
      DWF.call_with_fallback tryModel models name = DWF.allFailedMarker name) ∧
    (∀ (oracle : String → DWF.PromptSpec → DWF.Transport)
       (claudeModels gptModels geminiModels : List String) (q : String),
      (∀ m p s, DWF.call_openrouter (oracle m p) = Except.ok s → ¬ DWF.acceptable s) →
      DWF.run_debate oracle claudeModels gptModels geminiModels q =
        ⟨DWF.allFailedMarker "Claude", DWF.allFailedMarker "GPT", DWF.allFailedMarker "Gemini",
          DWF.allFailedMarker "Claude", DWF.allFailedMarker "GPT", DWF.allFailedMarker "Gemini",
          DWF.allFailedMarker "裁判"⟩) := by
  constructor
  · exact fun tryModel models name h => DWF.call_with_fallback_all_failed tryModel models name h
  · intro oracle claudeModels gptModels geminiModels q hfail
    have hall : ∀ (models : List String) (p : DWF.PromptSpec) (name : String),
        DWF.call_with_fallback (fun m => DWF.call_openrouter (oracle m p)) models name =
          DWF.allFailedMarker name :=
      fun models p name =>
        DWF.call_with_fallback_all_failed _ _ _ fun m _ s hs => hfail m p s hs
    simp only [DWF.run_debate, hall]

/-- Closed instantiation of C1: with a transport that always raises, a
three-candidate chain resolves to the marker and the whole run yields the
all-markers report. -/
theorem c1_witness :
    DWF.call_with_fallback (fun _ => Except.error "connection refused")
      DWF.GPT_MODELS "GPT" = DWF.allFailedMarker "GPT" ∧
    DWF.run_debate DWF.downOracle DWF.CLAUDE_MODELS DWF.GPT_MODELS DWF.GEMINI_MODELS "q" =
      ⟨DWF.allFailedMarker "Claude", DWF.allFailedMarker "GPT", DWF.allFailedMarker "Gemini",
        DWF.allFailedMarker "Claude", DWF.allFailedMarker "GPT", DWF.allFailedMarker "Gemini",
        DWF.allFailedMarker "裁判"⟩ :=
  ⟨c1_exhausted_chain_yields_marker_and_run_completes.1 _ _ _
      (by intro m _ s hs; exact absurd hs (by simp)),
   c1_exhausted_chain_yields_marker_and_run_completes.2 DWF.downOracle _ _ _ "q"
      (by intro m p s hs; simp [DWF.downOracle, DWF.call_openrouter] at hs)⟩

/-- C2: if candidate `model` is the first of the chain whose invocation
returns a `Success` text that does not start with `"["` and is longer than 100
characters, the resolver returns that text immediately and the candidates
after `model` are never invoked (the attempt list stops at `model`). -/
theorem c2_first_acceptable_short_circuits (tryModel : String → Except String String)
    (pre post : List String) (model name t : String)
    (hpre : ∀ x ∈ pre, ∀ s, tryModel x = Except.ok s → ¬ DWF.acceptable s)
    (hm : tryModel model = Except.ok t) (ht : DWF.acceptable t) :
    DWF.call_with_fallback tryModel (pre ++ model :: post) name = t ∧
    DWF.fallbackAttempts tryModel (pre ++ model :: post) = pre ++ [model] :=
  ⟨DWF.call_with_fallback_first_acceptable tryModel pre post model name t hpre hm ht,
   DWF.fallbackAttempts_first_acceptable tryModel pre post model t hpre hm ht⟩

set_option maxRecDepth 8000 in
/-- Closed instantiation of C2 on the `GPT_MODELS` chain: the first candidate
raises, the second succeeds acceptably, the third is never invoked. -/
theorem c2_witness :
    DWF.call_with_fallback c2TryModel
      (["openai/gpt-4o"] ++ "openai/gpt-4o-mini" :: ["openai/gpt-4-turbo"]) "GPT" =
        acceptedText ∧
    DWF.fallbackAttempts c2TryModel
      (["openai/gpt-4o"] ++ "openai/gpt-4o-mini" :: ["openai/gpt-4-turbo"]) =
        ["openai/gpt-4o"] ++ ["openai/gpt-4o-mini"] :=
  c2_first_acceptable_short_circuits c2TryModel ["openai/gpt-4o"] ["openai/gpt-4-turbo"]
    "openai/gpt-4o-mini" "GPT" acceptedText
    (by
      intro x hx s hs
      have hx1 : x = "openai/gpt-4o" := by simpa using hx
      subst hx1
      simp [c2TryModel] at hs)
    (by simp [c2TryModel])
    acceptedText_acceptable

/-- C10: implicit sentinel invariant of `debate_with_fallback.py`.  First,
every invoker-produced non-success string (non-200 status, or a payload with
no message) begins with `'['`; second, every value of `call_with_fallback` is
either an accepted candidate text — longer than 100 characters and not
bracket-initial, returned verbatim by a candidate — or the chain-exhaustion
marker; third, an invoker-produced error string can never pass the
acceptability check. -/
theorem c10_sentinel_invariant :
    (∀ (status : Nat) (choices : List String) (body s : String),
      ¬(status = 200 ∧ choices ≠ []) →
      DWF.call_openrouter (DWF.Transport.response ⟨status, choices, body⟩) = Except.ok s →
      s.startsWith "[" = true) ∧
    (∀ (tryModel : String → Except String String) (models : List String) (name : String),
      ((DWF.call_with_fallback tryModel models name).startsWith "[" = false ∧
        (DWF.call_with_fallback tryModel models name).length > 100 ∧
        ∃ m ∈ models,
          tryModel m = Except.ok (DWF.call_with_fallback tryModel models name)) ∨
      DWF.call_with_fallback tryModel models name = DWF.allFailedMarker name) ∧
    (∀ (status : Nat) (choices : List String) (body s : String),
      ¬(status = 200 ∧ choices ≠ []) →
      DWF.call_openrouter (DWF.Transport.response ⟨status, choices, body⟩) = Except.ok s →
      ¬ DWF.acceptable s) := by
  have herr : ∀ (status : Nat) (choices : List String) (body s : String),
      ¬(status = 200 ∧ choices ≠ []) →
      DWF.call_openrouter (DWF.Transport.response ⟨status, choices, body⟩) = Except.ok s →
      s.startsWith "[" = true := by
    intro status choices body s hshape h
    rcases DWF.call_openrouter_shape _ _ h with ⟨r, hr, h200, rest, hrest⟩ | ⟨cs, hcs⟩
    · cases hr
      have hc : choices = s :: rest := hrest
      exact absurd ⟨h200, by simp [hc]⟩ hshape
    · exact startsWith_bracket_of_data s cs hcs
  refine ⟨herr, ?_, ?_⟩
  · intro tryModel models name
    rcases DWF.call_with_fallback_dichotomy tryModel models name with ⟨⟨h1, h2⟩, hex⟩ | hmark
    · exact Or.inl ⟨h1, h2, hex⟩
    · exact Or.inr hmark
  · intro status choices body s hshape h hacc
    have := herr status choices body s hshape h
    rw [hacc.1] at this
    exact Bool.false_ne_true this

set_option maxRecDepth 8000 in
/-- Closed instantiation of C10: a 500-status response yields a
bracket-initial, never-acceptable error string, and on a concrete one-raising-
candidate chain the resolver's value satisfies the dichotomy. -/
theorem c10_witness :
    ("[API错误 500] oops").startsWith "[" = true ∧
    (((DWF.call_with_fallback c2TryModel ["openai/gpt-4o"] "GPT").startsWith "[" = false ∧
        (DWF.call_with_fallback c2TryModel ["openai/gpt-4o"] "GPT").length > 100 ∧
        ∃ m ∈ ["openai/gpt-4o"],
          c2TryModel m = Except.ok (DWF.call_with_fallback c2TryModel ["openai/gpt-4o"] "GPT")) ∨
      DWF.call_with_fallback c2TryModel ["openai/gpt-4o"] "GPT" =
        DWF.allFailedMarker "GPT") ∧
    ¬ DWF.acceptable "[API错误 500] oops" :=
  ⟨c10_sentinel_invariant.1 500 [] "oops" "[API错误 500] oops" (by decide) rfl,
   c10_sentinel_invariant.2.1 c2TryModel ["openai/gpt-4o"] "GPT",
   c10_sentinel_invariant.2.2 500 [] "oops" "[API错误 500] oops" (by decide) rfl⟩

/-! ## Claims about the pipeline -/

/-- One phase-map entry value of `run_multi_ai_debate` is always the invoker's
output for some (model, prompt) request: generated content or a
bracket-initial failure marker. -/
theorem MAD.entry_shape (oracle : String → MAD.PromptSpec → MAD.Transport)
    (m : String) (p : MAD.PromptSpec) :
    (∃ m2 p2 c cks jsonDump body,
      oracle m2 p2 = MAD.Transport.response 200 (c :: cks) jsonDump body ∧
      MAD.call_openrouter m (oracle m p) = c) ∨
    (MAD.call_openrouter m (oracle m p)).startsWith "[" = true := by
  rcases MAD.invoker_output_shape m (oracle m p) with ⟨c, cks, jd, b, ht, hv⟩ | hb
  · exact Or.inl ⟨m, p, c, cks, jd, b, ht, hv⟩
  · exact Or.inr hb

/-- C3: for every oracle (hence under any pattern of candidate failures),
question and mode, each returned phase map contains exactly one entry per
participating agent — its key list is exactly the three agent identities,
never more, never fewer — and every entry's value is a string that is either
backend-generated content or a bracket-initial failure-marker string, never
absent. -/
theorem c3_phase_result_one_entry_per_agent
    (oracle : String → MAD.PromptSpec → MAD.Transport) (q mode : String) :
    (MAD.run_multi_ai_debate oracle q mode).1.phase1_answers.map Prod.fst =
        ["claude", "chatgpt", "gemini"] ∧
    (MAD.run_multi_ai_debate oracle q mode).1.phase2_critiques.map Prod.fst =
        ["claude", "gemini", "chatgpt"] ∧
    (∀ kv ∈ (MAD.run_multi_ai_debate oracle q mode).1.phase1_answers ++
        (MAD.run_multi_ai_debate oracle q mode).1.phase2_critiques,
      (∃ m p c cks jsonDump body,
        oracle m p = MAD.Transport.response 200 (c :: cks) jsonDump body ∧ kv.2 = c) ∨
      kv.2.startsWith "[" = true) := by
  refine ⟨rfl, rfl, ?_⟩
  intro kv hkv
  simp only [MAD.run_multi_ai_debate, List.mem_append, List.mem_cons,
    List.not_mem_nil, or_false] at hkv
  rcases hkv with (rfl | rfl | rfl) | (rfl | rfl | rfl) <;>
    exact MAD.entry_shape oracle _ _

/-- Closed instantiation of C3: with an always-raising transport, the claude
entry of the quick run is present and is a failure-marker-or-content value. -/
theorem c3_witness :
    (∃ m p c cks jsonDump body,
      MAD.downOracle m p = MAD.Transport.response 200 (c :: cks) jsonDump body ∧
      (("claude", "[调用失败] down") : String × String).2 = c) ∨
    (("claude", "[调用失败] down") : String × String).2.startsWith "[" = true :=
  (c3_phase_result_one_entry_per_agent MAD.downOracle "q" "quick").2.2
    ("claude", "[调用失败] down") (by decide)

/-- C4: a `"quick"`-mode run executes exactly 3 phases (initial answers,
cross-critique, adjudication), a `"full"` run exactly 4 (adding synthesis), an
`"all"` run exactly 5 (adding internalization); for every mode the synthesis
phase runs iff the mode is `"full"` or `"all"`, and the internalization phase
runs iff the mode is `"all"`. -/
theorem c4_mode_gates_phase_count
    (oracle : String → MAD.PromptSpec → MAD.Transport) (q : String) :
    ((MAD.run_multi_ai_debate oracle q "quick").2.filter MAD.Event.isJoin).length = 3 ∧
    ((MAD.run_multi_ai_debate oracle q "full").2.filter MAD.Event.isJoin).length = 4 ∧
    ((MAD.run_multi_ai_debate oracle q "all").2.filter MAD.Event.isJoin).length = 5 ∧
    (∀ mode : String,
      (MAD.Event.joinAll 4 ∈ (MAD.run_multi_ai_debate oracle q mode).2 ↔
        mode = "full" ∨ mode = "all") ∧
      (MAD.Event.joinAll 5 ∈ (MAD.run_multi_ai_debate oracle q mode).2 ↔ mode = "all")) := by
  refine ⟨by rw [MAD.trace_eq]; decide, by rw [MAD.trace_eq]; decide,
    by rw [MAD.trace_eq]; decide, ?_⟩
  intro mode
  by_cases hall : mode = "all"
  · subst hall
    rw [MAD.trace_eq]
    exact ⟨by decide, by decide⟩
  · by_cases hfull : mode = "full"
    · subst hfull
      rw [MAD.trace_eq]
      exact ⟨by decide, by decide⟩
    · have hc : (["full", "all"].contains mode) = false := by
        simp [List.contains, hfull, hall]
      rw [MAD.trace_eq, hc, if_neg hall]
      simp [hfull, hall]

/-- C5: for both scripts, the cross-critique prompt record built for an agent
`A` never carries `A`'s own initial answer in one of the two "other agents'"
slots: those slots hold exactly the other two agents' answers, each attributed
to its own identity, while `A`'s own answer appears only as `my_answer`. -/
theorem c5_critique_excludes_own_answer :
    (∀ (q : String) (ans : MAD.Debater → String) (A : MAD.Debater),
      ∃ B C, B ≠ A ∧ C ≠ A ∧ B ≠ C ∧
        MAD.critique_prompt_args q (ans .claude) (ans .gemini) (ans .chatgpt) A =
          ⟨MAD.debaterName A, q, ans A,
            MAD.debaterName B, ans B, MAD.debaterName C, ans C⟩) ∧
    (∀ (q : String) (ans : DWF.Debater → String) (A : DWF.Debater),
      ∃ B C, B ≠ A ∧ C ≠ A ∧ B ≠ C ∧
        DWF.critique_prompt_args q (ans .claude) (ans .gpt) (ans .gemini) A =
          ⟨DWF.debaterName A, q, ans A,
            DWF.debaterName B, ans B, DWF.debaterName C, ans C⟩) := by
  constructor
  · intro q ans A
    cases A with
    | claude => exact ⟨.gemini, .chatgpt, by decide, by decide, by decide, rfl⟩
    | gemini => exact ⟨.claude, .chatgpt, by decide, by decide, by decide, rfl⟩
    | chatgpt => exact ⟨.claude, .gemini, by decide, by decide, by decide, rfl⟩
  · intro q ans A
    cases A with
    | claude => exact ⟨.gpt, .gemini, by decide, by decide, by decide, rfl⟩
    | gpt => exact ⟨.claude, .gemini, by decide, by decide, by decide, rfl⟩
    | gemini => exact ⟨.claude, .gpt, by decide, by decide, by decide, rfl⟩

/-- C9: phase-barrier ordering, for both pipelines.  In the scheduling trace
of every `run_multi_ai_debate` run and of every `run_debate` run, event
weights are monotone — no invocation of phase N+1 ever precedes the join
barrier of phase N, and every invocation of phase N precedes phase N's
barrier — and every phase ≥ 2 event is preceded (in the trace, by weight) by
the previous phase's join barrier, which the trace contains.  For
`run_debate` the instrumented run's result component is moreover proven to be
`run_debate` itself. -/
theorem c9_phase_barrier_ordering
    (oracle : String → MAD.PromptSpec → MAD.Transport) (q mode : String)
    (oracleF : String → DWF.PromptSpec → DWF.Transport)
    (claudeModels gptModels geminiModels : List String) (qf : String) :
    (List.Pairwise (fun a b => MAD.Event.weight a ≤ MAD.Event.weight b)
      (MAD.run_multi_ai_debate oracle q mode).2 ∧
     ∀ e ∈ (MAD.run_multi_ai_debate oracle q mode).2,
       2 ≤ MAD.Event.phase e →
       MAD.Event.joinAll (MAD.Event.phase e - 1) ∈
         (MAD.run_multi_ai_debate oracle q mode).2) ∧
    ((DWF.run_debate_traced oracleF claudeModels gptModels geminiModels qf).1 =
       DWF.run_debate oracleF claudeModels gptModels geminiModels qf ∧
     List.Pairwise (fun a b => MAD.Event.weight a ≤ MAD.Event.weight b)
       (DWF.run_debate_traced oracleF claudeModels gptModels geminiModels qf).2 ∧
     ∀ e ∈ (DWF.run_debate_traced oracleF claudeModels gptModels geminiModels qf).2,
       2 ≤ MAD.Event.phase e →
       MAD.Event.joinAll (MAD.Event.phase e - 1) ∈
         (DWF.run_debate_traced oracleF claudeModels gptModels geminiModels qf).2) := by
  constructor
  · by_cases hall : mode = "all"
    · subst hall
      rw [MAD.trace_eq]
      exact ⟨by decide, by decide⟩
    · by_cases hfull : mode = "full"
      · subst hfull
        rw [MAD.trace_eq]
        exact ⟨by decide, by decide⟩
      · have hc : (["full", "all"].contains mode) = false := by
          simp [List.contains, hfull, hall]
        rw [MAD.trace_eq, hc, if_neg hall]
        exact ⟨by decide, by decide⟩
  · have htr : (DWF.run_debate_traced oracleF claudeModels gptModels geminiModels qf).2 =
        [MAD.Event.invoke 1 "Claude", MAD.Event.invoke 1 "GPT", MAD.Event.invoke 1 "Gemini",
         MAD.Event.joinAll 1,
         MAD.Event.invoke 2 "Claude", MAD.Event.invoke 2 "GPT", MAD.Event.invoke 2 "Gemini",
         MAD.Event.joinAll 2,
         MAD.Event.invoke 3 "裁判", MAD.Event.joinAll 3] := rfl
    refine ⟨rfl, ?_, ?_⟩
    · rw [htr]
      decide
    · rw [htr]
      decide

/-- Closed instantiation of C9: in an `"all"` OpenRouter run and in a
`run_debate` run over the configured chains, the phase-2 invocations are
preceded by phase 1's join barrier, which each trace contains. -/
theorem c9_witness :
    MAD.Event.joinAll 1 ∈ (MAD.run_multi_ai_debate MAD.downOracle "q" "all").2 ∧
    MAD.Event.joinAll 1 ∈
      (DWF.run_debate_traced DWF.downOracle DWF.CLAUDE_MODELS DWF.GPT_MODELS
        DWF.GEMINI_MODELS "q").2 :=
  ⟨(c9_phase_barrier_ordering MAD.downOracle "q" "all" DWF.downOracle
      DWF.CLAUDE_MODELS DWF.GPT_MODELS DWF.GEMINI_MODELS "q").1.2
    (MAD.Event.invoke 2 MAD.CLAUDE_MODEL) (by decide) (by decide),
   (c9_phase_barrier_ordering MAD.downOracle "q" "all" DWF.downOracle
      DWF.CLAUDE_MODELS DWF.GPT_MODELS DWF.GEMINI_MODELS "q").2.2.2
    (MAD.Event.invoke 2 "Claude") (by decide) (by decide)⟩

/-! ## Claims about configuration and the invoker's diagnostics -/

/-- C6 counterexample: an agent configured with an empty fallback chain does
not fail fast at startup.  The resolver, handed the empty chain, returns the
exhaustion marker as an ordinary value, and `run_debate` with an empty Claude
chain proceeds through phase execution and completes, the marker standing in
for that agent — contradicting the claim that an empty chain never silently
proceeds into phase execution. -/
theorem c6_counterexample :
    DWF.call_with_fallback (fun _ => Except.error "never invoked") [] "Claude" =
      DWF.allFailedMarker "Claude" ∧
    (DWF.run_debate DWF.downOracle [] DWF.GPT_MODELS DWF.GEMINI_MODELS "q").claude_answer =
      DWF.allFailedMarker "Claude" :=
  ⟨rfl, rfl⟩

/-- C6 amended: the code performs no empty-chain configuration check.  An
agent whose chain is empty proceeds into phase execution and resolves to the
exhaustion marker (for any oracle); the chains actually configured are
non-empty constants; and the only fail-fast startup check in the code is the
missing-API-key check of the OpenRouter script, which aborts exactly when the
key is empty. -/
theorem c6_no_empty_chain_startup_check :
    (∀ (tryModel : String → Except String String) (name : String),
      DWF.call_with_fallback tryModel [] name = DWF.allFailedMarker name) ∧
    (∀ (oracle : String → DWF.PromptSpec → DWF.Transport)
       (gptModels geminiModels : List String) (q : String),
      (DWF.run_debate oracle [] gptModels geminiModels q).claude_answer =
        DWF.allFailedMarker "Claude") ∧
    (DWF.CLAUDE_MODELS ≠ [] ∧ DWF.GPT_MODELS ≠ [] ∧ DWF.GEMINI_MODELS ≠ []) ∧
    (MAD.startupCheck "" = Except.error "错误：请设置环境变量 OPENROUTER_API_KEY" ∧
      ∀ key, key ≠ "" → MAD.startupCheck key = Except.ok ()) := by
  refine ⟨fun tryModel name => rfl, fun oracle gptModels geminiModels q => rfl,
    ⟨by decide, by decide, by decide⟩, rfl, ?_⟩
  intro key hkey
  simp [MAD.startupCheck, hkey]

/-- Closed instantiation of the amended C6: a non-empty key passes startup. -/
theorem c6_witness : MAD.startupCheck "sk-test" = Except.ok () :=
  c6_no_empty_chain_startup_check.2.2.2.2 "sk-test" (by decide)

set_option maxRecDepth 8000 in
/-- C7 counterexample: the OpenRouter invoker does not truncate the raw body.
With a 300-character body, the non-success diagnostic contains the entire body
(312 characters in all), so its length is not bounded by any fixed prefix of
200 characters — contradicting the claim for that invoker. -/
theorem c7_counterexample :
    MAD.call_openrouter "m" (MAD.Transport.response 500 [] "" bigBody) =
      "[API错误 500] " ++ bigBody ∧
    bigBody.length = 300 ∧
    ("[API错误 500] " ++ bigBody).length = 312 :=
  ⟨rfl, by decide, by decide⟩

/-- C7 amended: only the `debate_with_fallback.py` invoker truncates the
raw-body diagnostic, to a 200-character prefix (so that diagnostic is bounded
by 200 characters plus the fixed frame); the OpenRouter invoker returns the
entire raw body on a non-success status, and the entire dumped payload on an
empty 200 response, untruncated. -/
theorem c7_truncation_only_in_fallback_script (status : Nat)
    (body jsonDump model : String) (h : status ≠ 200) :
    (DWF.call_openrouter (DWF.Transport.response ⟨status, [], body⟩) =
      Except.ok ("[API错误 " ++ toString status ++ "] " ++ body.take 200) ∧
      (body.take 200).length ≤ 200) ∧
    DWF.call_openrouter (DWF.Transport.response ⟨200, [], body⟩) =
      Except.ok ("[API错误 " ++ toString 200 ++ "] " ++ body.take 200) ∧
    MAD.call_openrouter model (MAD.Transport.response status [] jsonDump body) =
      "[API错误 " ++ toString status ++ "] " ++ body ∧
    MAD.call_openrouter model (MAD.Transport.response 200 [] jsonDump body) =
      "[API返回空内容] " ++ jsonDump := by
  refine ⟨⟨by simp only [DWF.call_openrouter], ?_⟩, rfl, ?_, rfl⟩
  · cases body with
    | mk data =>
      rw [String.take_eq]
      simp [Nat.min_le_left]
  · simp only [MAD.call_openrouter]
    rw [if_neg h]

/-- Closed instantiation of the amended C7 at a 500 status. -/
theorem c7_witness :
    (DWF.call_openrouter (DWF.Transport.response ⟨500, [], "oops"⟩) =
      Except.ok ("[API错误 " ++ toString 500 ++ "] " ++ ("oops" : String).take 200) ∧
      (("oops" : String).take 200).length ≤ 200) ∧
    DWF.call_openrouter (DWF.Transport.response ⟨200, [], "oops"⟩) =
      Except.ok ("[API错误 " ++ toString 200 ++ "] " ++ ("oops" : String).take 200) ∧
    MAD.call_openrouter "m" (MAD.Transport.response 500 [] "{}" "oops") =
      "[API错误 " ++ toString 500 ++ "] " ++ "oops" ∧
    MAD.call_openrouter "m" (MAD.Transport.response 200 [] "{}" "oops") =
      "[API返回空内容] " ++ "{}" :=
  c7_truncation_only_in_fallback_script 500 "oops" "{}" "m" (by decide)

/-- C8: the invoker applies the candidate's configured timeout —
`get_timeout_for_model` returns the table entry for a listed model, and 180
seconds (the `"default"` entry) for every unlisted model — and a timed-out
attempt yields the timeout failure-marker string as an ordinary value (a
bracket-initial marker naming the model and its configured timeout), never a
program-level failure. -/
theorem c8_timeout_lookup_and_timeout_marker (model : String) :
    (∀ t, MAD.MODEL_TIMEOUTS.lookup model = some t → MAD.get_timeout_for_model model = t) ∧
    (MAD.MODEL_TIMEOUTS.lookup model = none → MAD.get_timeout_for_model model = 180) ∧
    MAD.call_openrouter model MAD.Transport.timedOut =
      "[超时] 模型 " ++ model ++ " 响应超过 " ++
        toString (MAD.get_timeout_for_model model) ++ " 秒" ∧
    (MAD.call_openrouter model MAD.Transport.timedOut).startsWith "[" = true := by
  refine ⟨?_, ?_, rfl, ?_⟩
  · intro t h
    simp [MAD.get_timeout_for_model, h]
  · intro h
    simp only [MAD.get_timeout_for_model, h]
    rfl
  · rcases MAD.invoker_output_shape model MAD.Transport.timedOut with
      ⟨c, cks, jd, b, ht, _⟩ | hb
    · exact absurd ht (by simp)
    · exact hb

/-- Closed instantiation of C8: a listed model gets its table entry, an
unlisted one the 180-second default. -/
theorem c8_witness :
    MAD.get_timeout_for_model "openai/gpt-5.2-pro" = 600 ∧
    MAD.get_timeout_for_model "mistralai/mistral-7b" = 180 :=
  ⟨(c8_timeout_lookup_and_timeout_marker "openai/gpt-5.2-pro").1 600 rfl,
   (c8_timeout_lookup_and_timeout_marker "mistralai/mistral-7b").2.1 rfl⟩

end AIDebate
